import Mathlib

/-
Verification of the log-record filtering policy of chromatica.nvim
(rplugin/python3/chromatica/logger.py, class ChromaticaLogFilter).

The filter is embedded shallowly:
* a Python `logging` record is modelled by `LogRecord` (levelno as an
  integer level number, name / msg as strings, args as an opaque list of
  strings, exc_info / stack_info as the truthiness of those attributes);
* the mutable state of `ChromaticaLogFilter` (`self.counter`,
  `self.last_message_time`, `self.last_message`) is `FilterState`, with
  the `defaultdict(int)` counter as a total function `String → ℤ`
  defaulting to 0, and wall-clock time as a rational;
* `filter` takes the current time explicitly (the Python code reads
  `time.time()`) and returns the verdict, the successor state, and the
  list of records whose formatted message was sent to the notification
  sink (`self.vim.call` on chromatica#util#print_error);
* `filterE` is the same code instrumented with the possibility that the
  notification sink call raises: since the Python source wraps the call
  in no try/except, a raising sink aborts the call, carrying the state
  at the raise point.
-/

namespace Chromatica

/-- Numeric level of `logging.DEBUG`. -/
def DEBUG : ℤ := 10

/-- Numeric level of `logging.INFO`. -/
def INFO : ℤ := 20

/-- Numeric level of `logging.WARNING`. -/
def WARNING : ℤ := 30

/-- Numeric level of `logging.ERROR`. -/
def ERROR : ℤ := 40

/-- Numeric level of `logging.CRITICAL`. -/
def CRITICAL : ℤ := 50

/-- The module constant `log_message_cooldown = 0.5` (seconds). -/
def log_message_cooldown : ℚ := mkRat 1 2

/-- A Python `logging.LogRecord`, restricted to the attributes the filter
reads.  `args` is an opaque ordered sequence; `exc_info` and `stack_info`
are the truthiness of the corresponding attributes (absent = `false`). -/
structure LogRecord where
  levelno : ℤ
  name : String
  msg : String
  args : List String
  exc_info : Bool
  stack_info : Bool
deriving DecidableEq, Repr

/-- The tuple `(record.levelno, record.name, record.msg, record.args)`
built at the top of `ChromaticaLogFilter.filter` and compared against
`self.last_message`. -/
def msgSig (r : LogRecord) : ℤ × String × String × List String :=
  (r.levelno, r.name, r.msg, r.args)

/-- Mutable state of a `ChromaticaLogFilter` instance:
`self.counter` (a `defaultdict(int)`, so a total map defaulting to 0),
`self.last_message_time` and `self.last_message`. -/
structure FilterState where
  counter : String → ℤ
  last_message_time : ℚ
  last_message : Option (ℤ × String × String × List String)

/-- The state established by `ChromaticaLogFilter.__init__`:
empty counter, `last_message_time = 0`, `last_message = None`. -/
def initState : FilterState :=
  { counter := fun _ => 0
    last_message_time := 0
    last_message := none }

/-- Point update of the counter map, `self.counter[k] = v`. -/
def setCounter (c : String → ℤ) (k : String) (v : ℤ) : String → ℤ :=
  fun n => if n = k then v else c n

/-- `ChromaticaLogFilter.filter(record)`, with the call to `time.time()`
replaced by the explicit argument `t`.  Returns the boolean verdict, the
updated state, and the list of records forwarded to the notification sink
(`self.vim.call` on chromatica#util#print_error with `record.getMessage()`),
assuming the sink call returns normally. -/
def filter (s : FilterState) (t : ℚ) (r : LogRecord) :
    Bool × FilterState × List LogRecord :=
  let elapsed := t - s.last_message_time
  let s1 : FilterState := { s with last_message_time := t }
  let message := msgSig r
  if some message = s1.last_message ∧ elapsed < log_message_cooldown then
    (false, s1, [])
  else
    let s2 : FilterState := { s1 with last_message := some message }
    if ERROR ≤ r.levelno then
      let s3 : FilterState :=
        { s2 with counter := setCounter s2.counter r.name (s2.counter r.name + 1) }
      let notes : List LogRecord := if s3.counter r.name ≤ 2 then [r] else []
      let s4 : FilterState :=
        if r.exc_info && r.stack_info then
          { s3 with counter := setCounter s3.counter r.name (s3.counter r.name + 1) }
        else s3
      (true, s4, notes)
    else if s2.counter r.name < 2 then
      (true, { s2 with counter := setCounter s2.counter r.name 0 }, [])
    else
      (true, s2, [])

/-- `ChromaticaLogFilter.filter(record)` instrumented with a fallible
notification sink.  When `sinkRaises = true` the call
`self.vim.call` on chromatica#util#print_error raises; since the
source wraps it in no try/except, the exception propagates out of
`filter` (`Except.error`), carrying the state at the raise point. -/
def filterE (sinkRaises : Bool) (s : FilterState) (t : ℚ) (r : LogRecord) :
    Except FilterState (Bool × FilterState × List LogRecord) :=
  let elapsed := t - s.last_message_time
  let s1 : FilterState := { s with last_message_time := t }
  let message := msgSig r
  if some message = s1.last_message ∧ elapsed < log_message_cooldown then
    .ok (false, s1, [])
  else
    let s2 : FilterState := { s1 with last_message := some message }
    if ERROR ≤ r.levelno then
      let s3 : FilterState :=
        { s2 with counter := setCounter s2.counter r.name (s2.counter r.name + 1) }
      if s3.counter r.name ≤ 2 ∧ sinkRaises = true then
        .error s3
      else
        let notes : List LogRecord := if s3.counter r.name ≤ 2 then [r] else []
        let s4 : FilterState :=
          if r.exc_info && r.stack_info then
            { s3 with counter := setCounter s3.counter r.name (s3.counter r.name + 1) }
          else s3
        .ok (true, s4, notes)
    else if s2.counter r.name < 2 then
      .ok (true, { s2 with counter := setCounter s2.counter r.name 0 }, [])
    else
      .ok (true, s2, [])

/-- Run the filter over a timed sequence of records, collecting the
verdicts and the concatenated notification trace. -/
def runFilter (s : FilterState) :
    List (ℚ × LogRecord) → List Bool × FilterState × List LogRecord
  | [] => ([], s, [])
  | (t, r) :: rest =>
      let step := filter s t r
      let tail := runFilter step.2.1 rest
      (step.1 :: tail.1, tail.2.1, step.2.2 ++ tail.2.2)

/-- Number of notification-sink invocations attributed to source `src`
in a notification trace. -/
def notesFor (ns : List LogRecord) (src : String) : ℕ :=
  (ns.filter (fun r => r.name = src)).length

/-- Whether an `Except` result is a normal return. -/
def exceptOk (e : Except FilterState (Bool × FilterState × List LogRecord)) : Bool :=
  match e with
  | .ok _ => true
  | .error _ => false

/-- The condition of the duplicate-suppression branch. -/
def dupCond (s : FilterState) (t : ℚ) (r : LogRecord) : Prop :=
  some (msgSig r) = s.last_message ∧ t - s.last_message_time < log_message_cooldown

instance (s : FilterState) (t : ℚ) (r : LogRecord) : Decidable (dupCond s t r) := by
  unfold dupCond
  infer_instance

/-! ### Concrete fixtures used by witnesses and counterexamples -/

/-- An INFO-level record from source `src` (fixture for C5). -/
def rec5 : LogRecord := ⟨INFO, "src", "i", [], false, false⟩

/-- A state in which source `src` has one counted error (fixture for C5). -/
def st5 : FilterState :=
  { counter := setCounter (fun _ => 0) "src" 1
    last_message_time := 0
    last_message := none }

/-- An ERROR-level record from source `src` (fixture for C6). -/
def rec6 : LogRecord := ⟨ERROR, "src", "x", [], false, false⟩

/-- A state whose cached signature matches `rec6`, with the clock at 5
(fixture for C6: re-evaluating `rec6` at time 5 is a duplicate). -/
def st6 : FilterState :=
  { counter := fun _ => 0
    last_message_time := 5
    last_message := some (msgSig rec6) }

/-- An ERROR-level record from source `src` (fixture for C9). -/
def rec9 : LogRecord := ⟨ERROR, "src", "e", [], false, false⟩

/-- First ERROR record of the C2 scenarios. -/
def rec2e1 : LogRecord := ⟨ERROR, "src", "e1", [], false, false⟩

/-- Second ERROR record of the C2 scenarios. -/
def rec2e2 : LogRecord := ⟨ERROR, "src", "e2", [], false, false⟩

/-- Third ERROR record of the C2 scenarios. -/
def rec2e3 : LogRecord := ⟨ERROR, "src", "e3", [], false, false⟩

/-- An INFO record interleaved between the C2 errors. -/
def rec2i : LogRecord := ⟨INFO, "src", "i", [], false, false⟩

/-- Error, info, error, info, error from one source, well spaced:
each info resets the counter (then below 2), so every error notifies. -/
def seq2 : List (ℚ × LogRecord) :=
  [(1, rec2e1), (2, rec2i), (3, rec2e2), (4, rec2i), (5, rec2e3)]

/-- A state in which source `src` has an exhausted budget (count 2). -/
def st2w : FilterState :=
  { counter := setCounter (fun _ => 0) "src" 2
    last_message_time := 0
    last_message := none }

/-- Three distinct ERROR records from one source (fixtures for C3). -/
def rec3a : LogRecord := ⟨ERROR, "src", "a", [], false, false⟩

/-- Second C3 record. -/
def rec3b : LogRecord := ⟨ERROR, "src", "b", [], false, false⟩

/-- Third C3 record. -/
def rec3c : LogRecord := ⟨ERROR, "src", "c", [], false, false⟩

/-- An ERROR record carrying both exception and stack info (fixture for
C4). -/
def rec4a : LogRecord := ⟨ERROR, "src", "boom", [], true, true⟩

/-- A distinct plain ERROR record from the same source (fixture for C4). -/
def rec4b : LogRecord := ⟨ERROR, "src", "next", [], false, false⟩

/-- An ERROR record whose notification raises (fixture for C7). -/
def rec7 : LogRecord := ⟨ERROR, "src", "fail", [], false, false⟩

/-! ### Basic lemmas about the embedding -/

/-- The constant `log_message_cooldown` is the rational 0.5. -/
theorem log_message_cooldown_eq : log_message_cooldown = 1 / 2 := by
  rw [log_message_cooldown, Rat.mkRat_eq_div]
  norm_num

theorem cooldown_pos : 0 < log_message_cooldown := by
  rw [log_message_cooldown_eq]; norm_num

@[simp] theorem setCounter_same (c : String → ℤ) (k : String) (v : ℤ) :
    setCounter c k v k = v := by
  simp [setCounter]

theorem setCounter_other (c : String → ℤ) (k : String) (v : ℤ) (n : String)
    (h : n ≠ k) : setCounter c k v n = c n := by
  simp [setCounter, h]

/-- Evaluation of `filter` on a duplicate-suppressed record. -/
theorem filter_suppressed_eq (s : FilterState) (t : ℚ) (r : LogRecord)
    (h : dupCond s t r) :
    filter s t r = (false, { s with last_message_time := t }, []) := by
  unfold filter
  rw [if_pos]
  exact h

/-- Evaluation of `filter` on a non-suppressed record of level `>= ERROR`. -/
theorem filter_error_eq (s : FilterState) (t : ℚ) (r : LogRecord)
    (hnd : ¬ dupCond s t r) (he : ERROR ≤ r.levelno) :
    filter s t r =
      (true,
       { counter :=
           setCounter s.counter r.name
             (s.counter r.name + (if r.exc_info && r.stack_info then 2 else 1))
         last_message_time := t
         last_message := some (msgSig r) },
       if s.counter r.name + 1 ≤ 2 then [r] else []) := by
  unfold filter
  simp only []
  rw [if_neg (show ¬ (some (msgSig r) = s.last_message ∧
        t - s.last_message_time < log_message_cooldown) from hnd),
     if_pos he]
  rcases hx : (r.exc_info && r.stack_info) with _ | _
  · simp only [hx, Bool.false_eq_true, if_false, setCounter_same]
  · simp only [hx, if_true, setCounter_same]
    have hcnt : setCounter (setCounter s.counter r.name (s.counter r.name + 1)) r.name
        (s.counter r.name + 1 + 1) = setCounter s.counter r.name (s.counter r.name + 2) := by
      funext n
      simp only [setCounter]
      split_ifs <;> ring
    rw [hcnt]

/-- Evaluation of `filter` on a non-suppressed record of level `< ERROR`. -/
theorem filter_nonerror_eq (s : FilterState) (t : ℚ) (r : LogRecord)
    (hnd : ¬ dupCond s t r) (hl : r.levelno < ERROR) :
    filter s t r =
      (true,
       { counter :=
           if s.counter r.name < 2 then setCounter s.counter r.name 0 else s.counter
         last_message_time := t
         last_message := some (msgSig r) }, []) := by
  unfold filter
  simp only []
  rw [if_neg (show ¬ (some (msgSig r) = s.last_message ∧
        t - s.last_message_time < log_message_cooldown) from hnd),
     if_neg (by omega : ¬ ERROR ≤ r.levelno)]
  by_cases hc : s.counter r.name < 2 <;> simp [hc]

/-- Special case of `filter_error_eq` for a record without exception
info: the counter is bumped exactly once. -/
theorem filter_plain_error (s : FilterState) (t : ℚ) (r : LogRecord)
    (hnd : ¬ dupCond s t r) (he : ERROR ≤ r.levelno) (hx : r.exc_info = false) :
    filter s t r =
      (true,
       { counter := setCounter s.counter r.name (s.counter r.name + 1)
         last_message_time := t
         last_message := some (msgSig r) },
       if s.counter r.name + 1 ≤ 2 then [r] else []) := by
  rw [filter_error_eq s t r hnd he, hx]
  simp

theorem notesFor_append (a b : List LogRecord) (n : String) :
    notesFor (a ++ b) n = notesFor a n + notesFor b n := by
  simp [notesFor, List.filter_append]

/-- One unfolding step of `runFilter`. -/
theorem runFilter_cons (s : FilterState) (t : ℚ) (r : LogRecord)
    (rest : List (ℚ × LogRecord)) :
    runFilter s ((t, r) :: rest) =
      ((filter s t r).1 :: (runFilter (filter s t r).2.1 rest).1,
       (runFilter (filter s t r).2.1 rest).2.1,
       (filter s t r).2.2 ++ (runFilter (filter s t r).2.1 rest).2.2) := rfl

/-- Budget invariant: along a sequence in which every record from source
`n` is error-level, the number of future notifications for `n` is at most
`max 0 (2 - counter n)`. -/
theorem run_notes_bound (n : String) (l : List (ℚ × LogRecord)) :
    ∀ s : FilterState,
      (∀ p ∈ l, (Prod.snd p).name = n → ERROR ≤ (Prod.snd p).levelno) →
      (notesFor (runFilter s l).2.2 n : ℤ) ≤ max 0 (2 - s.counter n) := by
  induction l with
  | nil =>
    intro s _
    simp [runFilter, notesFor]
  | cons p rest ih =>
    rcases p with ⟨t, r⟩
    intro s hl
    have hrest : ∀ q ∈ rest, (Prod.snd q).name = n → ERROR ≤ (Prod.snd q).levelno :=
      fun q hq => hl q (List.mem_cons_of_mem _ hq)
    rw [runFilter_cons, notesFor_append]
    by_cases hd : dupCond s t r
    · simp only [filter_suppressed_eq s t r hd]
      simpa [notesFor] using ih ⟨s.counter, t, s.last_message⟩ hrest
    · rcases le_or_lt ERROR r.levelno with he | hl2
      · simp only [filter_error_eq s t r hd he]
        have ihx := ih ⟨setCounter s.counter r.name
          (s.counter r.name + if r.exc_info && r.stack_info then 2 else 1),
          t, some (msgSig r)⟩ hrest
        by_cases hn : r.name = n
        · subst hn
          simp only [setCounter_same] at ihx
          have hsn : notesFor (if s.counter r.name + 1 ≤ 2 then [r] else []) r.name =
              if s.counter r.name + 1 ≤ 2 then 1 else 0 := by
            split_ifs <;> simp [notesFor]
          rw [hsn]
          push_cast
          split_ifs at * <;> omega
        · have hcn : setCounter s.counter r.name
              (s.counter r.name + if r.exc_info && r.stack_info then 2 else 1) n =
              s.counter n := setCounter_other _ _ _ _ (Ne.symm hn)
          simp only [hcn] at ihx
          have hsn : notesFor (if s.counter r.name + 1 ≤ 2 then [r] else []) n = 0 := by
            split_ifs <;> simp [notesFor, hn]
          rw [hsn]
          push_cast
          omega
      · have hne : r.name ≠ n := by
          intro h
          have hh : ERROR ≤ r.levelno := hl ⟨t, r⟩ (List.mem_cons_self _ _) h
          omega
        simp only [filter_nonerror_eq s t r hd hl2]
        have ihx := ih ⟨if s.counter r.name < 2 then setCounter s.counter r.name 0
          else s.counter, t, some (msgSig r)⟩ hrest
        have hcn : (if s.counter r.name < 2 then setCounter s.counter r.name 0
            else s.counter) n = s.counter n := by
          split_ifs
          · exact setCounter_other _ _ _ _ (Ne.symm hne)
          · rfl
        simp only [hcn] at ihx
        simpa [notesFor] using ihx

/-! ### Claim theorems -/

/-- C1: a record evaluated by the filter gets verdict `false` exactly when
its signature `(levelno, name, msg, args)` equals `last_message` and the
time elapsed since the previous evaluation is strictly below 0.5 seconds;
in every other case the verdict is `true`. -/
theorem c1_suppression_iff (s : FilterState) (t : ℚ) (r : LogRecord) :
    (filter s t r).1 = false ↔
      (some (msgSig r) = s.last_message ∧
       t - s.last_message_time < 1 / 2) := by
  rw [← log_message_cooldown_eq]
  by_cases h : dupCond s t r
  · rw [filter_suppressed_eq s t r h]
    simpa using h
  · constructor
    · intro hv
      exfalso
      rcases le_or_lt ERROR r.levelno with he | hl
      · rw [filter_error_eq s t r h he] at hv
        simp at hv
      · rw [filter_nonerror_eq s t r h hl] at hv
        simp at hv
    · intro hc
      exact absurd hc h

/-- C10: the very first record evaluated by a freshly constructed filter
always gets verdict `true`: `last_message` is initially `None`, which is
equal to no record signature, so the suppression branch cannot fire. -/
theorem c10_first_record_passes (t : ℚ) (r : LogRecord) :
    (filter initState t r).1 = true := by
  have hnd : ¬ dupCond initState t r := by
    simp [dupCond, initState]
  rcases le_or_lt ERROR r.levelno with he | hl
  · rw [filter_error_eq _ _ _ hnd he]
  · rw [filter_nonerror_eq _ _ _ hnd hl]

/-- C5: a non-suppressed record of severity below `ERROR` resets
`counter[record.name]` to 0 when its current value is strictly below 2,
and leaves it unchanged when it is 2 or more. -/
theorem c5_nonerror_reset (s : FilterState) (t : ℚ) (r : LogRecord)
    (hv : (filter s t r).1 = true) (hl : r.levelno < ERROR) :
    ((filter s t r).2.1.counter r.name =
      if s.counter r.name < 2 then 0 else s.counter r.name) := by
  have hnd : ¬ dupCond s t r := by
    intro h
    rw [filter_suppressed_eq s t r h] at hv
    simp at hv
  rw [filter_nonerror_eq s t r hnd hl]
  by_cases hc : s.counter r.name < 2 <;> simp [hc]

/-- C6: on a duplicate-suppressed record (verdict `false`) the filter
leaves `counter` and `last_message` untouched and sends nothing to the
sink; `last_message_time` is set to the current time on every evaluated
record, suppressed or not. -/
theorem c6_suppressed_frame (s : FilterState) (t : ℚ) (r : LogRecord) :
    (filter s t r).2.1.last_message_time = t ∧
    ((filter s t r).1 = false →
      (filter s t r).2.1.counter = s.counter ∧
      (filter s t r).2.1.last_message = s.last_message ∧
      (filter s t r).2.2 = []) := by
  by_cases h : dupCond s t r
  · rw [filter_suppressed_eq s t r h]
    simp
  · rcases le_or_lt ERROR r.levelno with he | hl
    · rw [filter_error_eq s t r h he]
      simp
    · rw [filter_nonerror_eq s t r h hl]
      simp

/-- C8: the filter is total.  With a sink that returns normally, the
instrumented `filterE` never aborts and agrees with `filter` on every
state and record (absent args are the empty list, absent exception and
stack info are `false`); the counter of a never-seen source reads 0. -/
theorem c8_filter_total (s : FilterState) (t : ℚ) (r : LogRecord) (n : String) :
    filterE false s t r = Except.ok (filter s t r) ∧ initState.counter n = 0 := by
  refine ⟨?_, rfl⟩
  unfold filter filterE
  simp only []
  by_cases h : some (msgSig r) = s.last_message ∧
      t - s.last_message_time < log_message_cooldown
  · rw [if_pos h, if_pos h]
  · rw [if_neg h, if_neg h]
    by_cases he : ERROR ≤ r.levelno
    · rw [if_pos he, if_pos he,
        if_neg (show ¬ (setCounter s.counter r.name (s.counter r.name + 1) r.name ≤ 2 ∧
          false = true) by simp)]
    · rw [if_neg he, if_neg he]
      by_cases hc : s.counter r.name < 2
      · rw [if_pos hc, if_pos hc]
      · rw [if_neg hc, if_neg hc]

/-- C9: the counters are non-negative in the initial state, and any
filter call preserves non-negativity of the counter of every source. -/
theorem c9_counter_nonneg (s : FilterState) (t : ℚ) (r : LogRecord)
    (hs : ∀ m, 0 ≤ s.counter m) :
    (∀ m, 0 ≤ initState.counter m) ∧
    (∀ m, 0 ≤ (filter s t r).2.1.counter m) := by
  refine ⟨fun m => le_refl 0, fun m => ?_⟩
  by_cases h : dupCond s t r
  · rw [filter_suppressed_eq s t r h]
    exact hs m
  · rcases le_or_lt ERROR r.levelno with he | hl
    · rw [filter_error_eq s t r h he]
      by_cases hm : m = r.name
      · have := hs r.name
        simp only [setCounter, hm, if_pos rfl]
        split_ifs <;> omega
      · simpa [setCounter, hm] using hs m
    · rw [filter_nonerror_eq s t r h hl]
      by_cases hc : s.counter r.name < 2
      · simp only [if_pos hc, setCounter]
        by_cases hm : m = r.name <;> simp [hm, hs m]
      · simpa [if_neg hc] using hs m

/-- Witness for C5: a concrete INFO record hitting a count of 1 resets it
to 0. -/
theorem c5_nonerror_reset_witness :
    st5.counter "src" < 2 ∧ (filter st5 1 rec5).2.1.counter "src" = 0 := by
  refine ⟨by decide, ?_⟩
  have h := c5_nonerror_reset st5 1 rec5 (by decide) (by decide)
  rw [if_pos (show st5.counter rec5.name < 2 by decide)] at h
  exact h

/-- Witness for C6: a concrete duplicate record is suppressed and only
the clock changes. -/
theorem c6_suppressed_frame_witness :
    (filter st6 5 rec6).1 = false ∧
    (filter st6 5 rec6).2.1.last_message_time = 5 ∧
    (filter st6 5 rec6).2.1.counter = st6.counter ∧
    (filter st6 5 rec6).2.1.last_message = st6.last_message ∧
    (filter st6 5 rec6).2.2 = [] := by
  have hsupp : (filter st6 5 rec6).1 = false := by
    simp [filter, st6, cooldown_pos]
  have h := c6_suppressed_frame st6 5 rec6
  exact ⟨hsupp, h.1, h.2 hsupp⟩

/-- Witness for C9: counters stay non-negative on a concrete error
record from the initial state. -/
theorem c9_counter_nonneg_witness :
    0 ≤ (filter initState 1 rec9).2.1.counter "src" :=
  ((c9_counter_nonneg initState 1 rec9 (fun _ => le_refl 0)).2) "src"

/-- Counterexample to C2 as stated: on the sequence error, info, error,
info, error from source `src` (well spaced, distinct messages), each
info record resets the counter, so the sink fires 3 times for `src`,
not at most 2 over the lifetime. -/
theorem c2_counterexample :
    ¬ notesFor (runFilter initState seq2).2.2 "src" ≤ 2 := by decide

/-- C2 amended: the 2-notification budget of a source holds over any
sequence in which every record from that source is error-level (a
sub-ERROR record from the source while its count is below 2 resets the
count and renews the budget, so the lifetime total may exceed 2); and
once `counter[source] >= 2`, the counter never drops again, no record
from the source triggers a notification, and a non-suppressed record
still gets verdict `true`. -/
theorem c2_amended_budget (n : String) :
    (∀ l : List (ℚ × LogRecord),
       (∀ p ∈ l, (Prod.snd p).name = n → ERROR ≤ (Prod.snd p).levelno) →
       notesFor (runFilter initState l).2.2 n ≤ 2) ∧
    (∀ (s : FilterState) (t : ℚ) (r : LogRecord), r.name = n → 2 ≤ s.counter n →
       (filter s t r).2.2 = [] ∧ 2 ≤ (filter s t r).2.1.counter n ∧
       (¬ dupCond s t r → (filter s t r).1 = true)) := by
  constructor
  · intro l hl
    have h := run_notes_bound n l initState hl
    have h2 : (notesFor (runFilter initState l).2.2 n : ℤ) ≤ 2 := by
      simpa [initState] using h
    exact_mod_cast h2
  · intro s t r hn hc
    subst hn
    by_cases hd : dupCond s t r
    · rw [filter_suppressed_eq s t r hd]
      exact ⟨rfl, hc, fun hnd => absurd hd hnd⟩
    · rcases le_or_lt ERROR r.levelno with he | hl2
      · simp only [filter_error_eq s t r hd he]
        refine ⟨by rw [if_neg (by omega)], ?_, fun _ => trivial⟩
        rw [setCounter_same]
        split_ifs <;> omega
      · simp only [filter_nonerror_eq s t r hd hl2]
        refine ⟨trivial, ?_, fun _ => trivial⟩
        rw [if_neg (by omega)]
        exact hc

/-- Witness for C2 amended: three spaced distinct errors from `src`
notify at most twice, and with the budget exhausted a further error
notifies nobody. -/
theorem c2_amended_budget_witness :
    notesFor (runFilter initState [(1, rec2e1), (2, rec2e2), (3, rec2e3)]).2.2 "src" ≤ 2 ∧
    (filter st2w 9 rec2e1).2.2 = [] :=
  ⟨(c2_amended_budget "src").1 [(1, rec2e1), (2, rec2e2), (3, rec2e3)] (by decide),
   ((c2_amended_budget "src").2 st2w 9 rec2e1 rfl (by decide)).1⟩

/-- C3: from a fresh filter, three pairwise non-duplicate error-level
records from one source, with no exception/stack info, all pass, and
the notification sink receives exactly the first two. -/
theorem c3_third_error_silent
    (src : String) (t1 t2 t3 : ℚ) (r1 r2 r3 : LogRecord)
    (h1n : r1.name = src) (h2n : r2.name = src) (h3n : r3.name = src)
    (h1l : r1.levelno = ERROR) (h2l : r2.levelno = ERROR) (h3l : r3.levelno = ERROR)
    (h1x : r1.exc_info = false) (h1k : r1.stack_info = false)
    (h2x : r2.exc_info = false) (h2k : r2.stack_info = false)
    (h3x : r3.exc_info = false) (h3k : r3.stack_info = false)
    (h12 : msgSig r1 ≠ msgSig r2) (h23 : msgSig r2 ≠ msgSig r3) :
    (runFilter initState [(t1, r1), (t2, r2), (t3, r3)]).1 = [true, true, true] ∧
    (runFilter initState [(t1, r1), (t2, r2), (t3, r3)]).2.2 = [r1, r2] := by
  have hnd1 : ¬ dupCond initState t1 r1 := by
    simp [dupCond, initState]
  have e1 : filter initState t1 r1 =
      (true, ⟨setCounter (fun _ => 0) r1.name 1, t1, some (msgSig r1)⟩, [r1]) := by
    rw [filter_plain_error initState t1 r1 hnd1 h1l.ge h1x]
    norm_num [initState]
  have hnd2 : ¬ dupCond ⟨setCounter (fun _ => 0) r1.name 1, t1, some (msgSig r1)⟩ t2 r2 :=
    fun hcond => h12 (Option.some.inj hcond.1).symm
  have e2 : filter ⟨setCounter (fun _ => 0) r1.name 1, t1, some (msgSig r1)⟩ t2 r2 =
      (true, ⟨setCounter (setCounter (fun _ => 0) r1.name 1) r2.name 2, t2,
        some (msgSig r2)⟩, [r2]) := by
    rw [filter_plain_error _ t2 r2 hnd2 h2l.ge h2x]
    have hv : setCounter (fun _ => 0) r1.name 1 r2.name = 1 := by
      simp [setCounter, h1n, h2n]
    simp only [hv]
    norm_num
  have hnd3 : ¬ dupCond ⟨setCounter (setCounter (fun _ => 0) r1.name 1) r2.name 2, t2,
      some (msgSig r2)⟩ t3 r3 :=
    fun hcond => h23 (Option.some.inj hcond.1).symm
  have e3 : filter ⟨setCounter (setCounter (fun _ => 0) r1.name 1) r2.name 2, t2,
      some (msgSig r2)⟩ t3 r3 =
      (true, ⟨setCounter (setCounter (setCounter (fun _ => 0) r1.name 1) r2.name 2)
        r3.name 3, t3, some (msgSig r3)⟩, []) := by
    rw [filter_plain_error _ t3 r3 hnd3 h3l.ge h3x]
    have hv : setCounter (setCounter (fun _ => 0) r1.name 1) r2.name 2 r3.name = 2 := by
      simp [setCounter, h2n, h3n]
    simp only [hv]
    norm_num
  simp [runFilter_cons, runFilter, e1, e2, e3]

/-- Witness for C3: the concrete records `rec3a`, `rec3b`, `rec3c`. -/
theorem c3_third_error_silent_witness :
    (runFilter initState [(1, rec3a), (2, rec3b), (3, rec3c)]).1 = [true, true, true] ∧
    (runFilter initState [(1, rec3a), (2, rec3b), (3, rec3c)]).2.2 = [rec3a, rec3b] :=
  c3_third_error_silent "src" 1 2 3 rec3a rec3b rec3c rfl rfl rfl rfl rfl rfl
    rfl rfl rfl rfl rfl rfl (by decide) (by decide)

/-- C4: a non-suppressed ERROR-or-higher record with both exception and
stack info bumps the counter of its source by 2 in one call; from a fresh
source this leaves the counter at 2 after a single notification (the
notification check sits between the two increments), and a second
distinct error from the source then passes without notifying. -/
theorem c4_exception_penalty (s : FilterState) (t : ℚ) (r : LogRecord)
    (hnd : ¬ dupCond s t r) (he : ERROR ≤ r.levelno)
    (hx : r.exc_info = true) (hk : r.stack_info = true) :
    (filter s t r).2.1.counter r.name = s.counter r.name + 2 ∧
    (s.counter r.name = 0 → (filter s t r).2.2 = [r]) ∧
    (∀ (t2 : ℚ) (r2 : LogRecord), s.counter r.name = 0 → r2.name = r.name →
      ERROR ≤ r2.levelno → msgSig r2 ≠ msgSig r →
      (filter (filter s t r).2.1 t2 r2).1 = true ∧
      (filter (filter s t r).2.1 t2 r2).2.2 = []) := by
  simp only [filter_error_eq s t r hnd he, hx, hk, Bool.and_self, if_true]
  refine ⟨setCounter_same _ _ _, fun hc => by rw [hc]; norm_num, ?_⟩
  intro t2 r2 hc hn2 he2 hne
  have hnd2 : ¬ dupCond ⟨setCounter s.counter r.name (s.counter r.name + 2), t,
      some (msgSig r)⟩ t2 r2 :=
    fun hcond => hne (Option.some.inj hcond.1)
  simp only [filter_error_eq _ t2 r2 hnd2 he2]
  have hv : setCounter s.counter r.name (s.counter r.name + 2) r2.name = 2 := by
    simp [hn2, setCounter_same, hc]
  simp only [hv]
  norm_num

/-- Witness for C4: the concrete exception-carrying record `rec4a`
followed by the plain error `rec4b`. -/
theorem c4_exception_penalty_witness :
    (filter initState 1 rec4a).2.1.counter "src" = 0 + 2 ∧
    (filter initState 1 rec4a).2.2 = [rec4a] ∧
    (filter (filter initState 1 rec4a).2.1 2 rec4b).1 = true ∧
    (filter (filter initState 1 rec4a).2.1 2 rec4b).2.2 = [] := by
  have h := c4_exception_penalty initState 1 rec4a (by decide) (by decide) rfl rfl
  exact ⟨h.1, h.2.1 rfl, h.2.2 2 rec4b rfl rfl (by decide) (by decide)⟩

/-- Counterexample to C7 as stated: the source wraps the notification
call in no try/except, so when the sink raises on a concrete fresh
error record, `filter` does not return a verdict at all. -/
theorem c7_counterexample :
    exceptOk (filterE true initState 1 rec7) = false := by decide

/-- C7 amended: when the notification sink raises on an error-level
record inside the budget, the exception propagates out of `filter` (no
verdict is returned); at the raise point the counter holds exactly the
pre-notification update (one increment), and the signature and clock
are already updated. -/
theorem c7_sink_failure_propagates (s : FilterState) (t : ℚ) (r : LogRecord)
    (hnd : ¬ dupCond s t r) (he : ERROR ≤ r.levelno)
    (hc : s.counter r.name + 1 ≤ 2) :
    filterE true s t r = Except.error
      { counter := setCounter s.counter r.name (s.counter r.name + 1)
        last_message_time := t
        last_message := some (msgSig r) } := by
  unfold filterE
  simp only []
  rw [if_neg (show ¬ (some (msgSig r) = s.last_message ∧
        t - s.last_message_time < log_message_cooldown) from hnd),
     if_pos he,
     if_pos (show setCounter s.counter r.name (s.counter r.name + 1) r.name ≤ 2 ∧
        True from ⟨by simpa using hc, trivial⟩)]

/-- Witness for C7 amended: the concrete record `rec7` with a raising
sink aborts the call with the counter of `src` at 1. -/
theorem c7_sink_failure_propagates_witness :
    filterE true initState 1 rec7 = Except.error
      { counter := setCounter (fun _ => 0) "src" (0 + 1)
        last_message_time := 1
        last_message := some (msgSig rec7) } :=
  c7_sink_failure_propagates initState 1 rec7 (by decide) (by decide) (by decide)

end Chromatica
